import Mathlib

/-
Shallow embedding of the Short Deck game core (src/main.py).

Modelling conventions:
- Python ints are Nat where the source keeps them non-negative
  (scores, counters clamped at 0) and Int where they may go negative
  (hands_remaining is decremented unconditionally).
- Money is Python float with round(x, 2) after each operation; it is
  modelled as ℚ with roundCents, an exact round-half-to-even to two
  decimal places (Python's documented rounding mode on exact values).
- random.shuffle is modelled by an explicit shuffle parameter
  (an arbitrary function on card lists; the claims settled here either
  hold for every such function or are evaluated on a branch where no
  reshuffle occurs).
- Rendering, audio, timers-as-wall-clock, and the pygame event loop are
  out of scope; timed updates take the already-computed elapsed seconds
  (the source computes elapsed from pygame.time.get_ticks and compares
  it against the same constants).
-/

namespace Shortdeck

/-- Suit enum of src/main.py (class Suit). -/
inductive Suit
  | spades
  | hearts
  | diamonds
  | clubs
  | stars
deriving DecidableEq

/-- Rank enum of src/main.py (class Rank); short deck ranks 8..14. -/
inductive Rank
  | eight
  | nine
  | ten
  | jack
  | queen
  | king
  | ace
deriving DecidableEq

/-- Numeric value of a rank (Rank enum values in the source). -/
def Rank.val : Rank → Nat
  | .eight => 8
  | .nine => 9
  | .ten => 10
  | .jack => 11
  | .queen => 12
  | .king => 13
  | .ace => 14

/-- Card dataclass: suit, rank and the mutable selected flag. -/
structure Card where
  suit : Suit
  rank : Rank
  selected : Bool := false
deriving DecidableEq

/-- HandType enum; the numeric tie-break value is the second component
returned by the evaluator below, as in the source. -/
inductive HandType
  | HIGH_CARD
  | PAIR
  | TWO_PAIR
  | THREE_OF_A_KIND
  | STRAIGHT
  | FLUSH
  | FULL_HOUSE
  | FOUR_OF_A_KIND
  | STRAIGHT_FLUSH
  | ROYAL_FLUSH
  | FIVE_OF_A_KIND
deriving DecidableEq

/-- Python sorted on a Nat list (ascending). -/
def sortAsc (l : List Nat) : List Nat :=
  List.insertionSort (fun a b => a ≤ b) l

/-- Python sorted(-, reverse=True) on a Nat list: descending order.
On Nat values this equals the reverse of the ascending sort. -/
def sortDesc (l : List Nat) : List Nat :=
  (sortAsc l).reverse

/-- ranks = [card.rank.value for card in cards] -/
def ranksOf (cards : List Card) : List Nat :=
  cards.map fun c => c.rank.val

/-- suits = [card.suit for card in cards] -/
def suitsOf (cards : List Card) : List Suit :=
  cards.map fun c => c.suit

/-- counts = sorted(rank_counts.values(), reverse=True): the multiset of
per-rank multiplicities, sorted descending.  The Python dict iterates
ranks in first-occurrence order, which is List.dedup order; sorting
makes the order immaterial. -/
def countsOf (cards : List Card) : List Nat :=
  sortDesc (((ranksOf cards).dedup).map fun r => (ranksOf cards).count r)

/-- sorted_ranks = sorted(set(ranks)) -/
def sortedRanksOf (cards : List Card) : List Nat :=
  sortAsc (ranksOf cards).dedup

/-- len(set(suits)) -/
def suitKinds (cards : List Card) : Nat :=
  (suitsOf cards).dedup.length

/-- Decision chain of HandEvaluator.evaluate_hand, expressed over the
derived data (counts, sorted distinct ranks, number of distinct suits,
number of cards).  Mirrors the source's guard order exactly. -/
def evalFrom (counts sorted_ranks : List Nat) (nsuits ncards : Nat) :
    HandType × Nat :=
  let is_flush := nsuits = 1
  let is_straight :=
    sorted_ranks.length = 5 ∧ sorted_ranks.getLastD 0 - sorted_ranks.headD 0 = 4
  if counts = [] then (HandType.HIGH_CARD, 0)
  else if is_straight ∧ is_flush ∧ 5 ≤ sorted_ranks.length
      ∧ sorted_ranks.getLastD 0 = 14 ∧ sorted_ranks.headD 0 = 10 then
    (HandType.ROYAL_FLUSH, 9)
  else if is_straight ∧ is_flush then (HandType.STRAIGHT_FLUSH, 8)
  else if counts.headD 0 = 5 then (HandType.FIVE_OF_A_KIND, 10)
  else if counts.headD 0 = 4 then (HandType.FOUR_OF_A_KIND, 7)
  else if 2 ≤ counts.length ∧ counts.headD 0 = 3 ∧ counts.getD 1 0 = 2 then
    (HandType.FULL_HOUSE, 6)
  else if is_flush ∧ ncards = 5 then (HandType.FLUSH, 5)
  else if is_straight then (HandType.STRAIGHT, 4)
  else if counts.headD 0 = 3 then (HandType.THREE_OF_A_KIND, 3)
  else if 2 ≤ counts.length ∧ counts.headD 0 = 2 ∧ counts.getD 1 0 = 2 then
    (HandType.TWO_PAIR, 2)
  else if counts.headD 0 = 2 then (HandType.PAIR, 1)
  else (HandType.HIGH_CARD, 0)

/-- HandEvaluator.evaluate_hand (src/main.py lines 93-156). -/
def evaluate_hand (cards : List Card) : HandType × Nat :=
  evalFrom (countsOf cards) (sortedRanksOf cards) (suitKinds cards) cards.length

/-- Base point table of Game.calculate_hand_score. -/
def basePoints : HandType → Nat
  | .HIGH_CARD => 5
  | .PAIR => 10
  | .TWO_PAIR => 20
  | .THREE_OF_A_KIND => 30
  | .STRAIGHT => 30
  | .FLUSH => 35
  | .FULL_HOUSE => 40
  | .FOUR_OF_A_KIND => 60
  | .STRAIGHT_FLUSH => 100
  | .ROYAL_FLUSH => 100
  | .FIVE_OF_A_KIND => 150

/-- Game.calculate_hand_score (src/main.py lines 326-352).
Python adds max(0, rank - 10) per card; truncated Nat subtraction
rank.val - 10 is that same quantity. -/
def calculate_hand_score (cards : List Card) : Option HandType × Nat :=
  if cards = [] then (none, 0)
  else
    let ht := (evaluate_hand cards).1
    (some ht, basePoints ht + (cards.map fun c => c.rank.val - 10).sum)

/-- Round-half-to-even of a rational to an integer (Python round(x)). -/
def roundHalfEven (x : ℚ) : ℤ :=
  let f := ⌊x⌋
  let r := x - (f : ℚ)
  if r < 1/2 then f
  else if 1/2 < r then f + 1
  else if f % 2 = 0 then f else f + 1

/-- Python round(x, 2): round to two decimal places. -/
def roundCents (x : ℚ) : ℚ :=
  (roundHalfEven (x * 100) : ℚ) / 100

/-- Logical game state: the fields of Game.__init__ that the core rules
read or write.  Pygame surfaces, fonts, sounds, pixel positions, the
spiral angle, flying-component data, animation progress/alpha and raw
millisecond timestamps are presentation-only and omitted; timed updates
below receive the elapsed seconds directly. -/
structure GameState where
  deck : List Card
  hand : List Card
  discard_pile : List Card
  score : Nat
  points : Nat
  round : Nat
  hand_type : Option HandType
  hands_remaining : ℤ
  base_points_required : Nat
  points_remaining : Nat
  game_over : Bool
  pot_index : Nat
  level_index : Nat
  max_discards_per_round : Nat
  discards_remaining : Nat
  max_hand_size : Nat
  scoring_animation : Bool
  animated_cards : List Card
  round_complete_animation : Bool
  show_round_recap : Bool
  round_complete : Bool
  money : ℚ
  money_earned_this_round : ℚ
  interest_earned_this_round : ℚ
  show_shop_menu : Bool
deriving DecidableEq

/-- All 35 cards, in the order of Game.create_deck's comprehension
(suit outer loop, rank inner loop), before shuffling. -/
def fullDeck : List Card :=
  ([Suit.spades, Suit.hearts, Suit.diamonds, Suit.clubs, Suit.stars].map
    fun s => [Rank.eight, Rank.nine, Rank.ten, Rank.jack, Rank.queen,
      Rank.king, Rank.ace].map fun r => ({ suit := s, rank := r } : Card)).flatten

/-- Game.deal_hand (src/main.py lines 283-312).  cards_to_discard = some cs
moves those cards from the hand to the discard pile first (Python
list.remove removes the first equal element); then cards are popped from
the end of the deck up to max_hand_size; finally, if fewer than 5 cards
remain in the deck, the deck is REPLACED by the shuffled discard pile
(the source overwrites self.deck, dropping its remaining cards).  The
unused legacy discard_all branch is not modelled. -/
def deal_hand (shuffle : List Card → List Card)
    (cards_to_discard : Option (List Card)) (s : GameState) : GameState :=
  let s :=
    match cards_to_discard with
    | some cs =>
      cs.foldl (fun (st : GameState) c =>
        if c ∈ st.hand then
          { st with hand := st.hand.erase c,
                    discard_pile := st.discard_pile ++ [c] }
        else st) s
    | none => s
  let n := min (s.max_hand_size - s.hand.length) s.deck.length
  let s := { s with hand := s.hand ++ (s.deck.drop (s.deck.length - n)).reverse,
                    deck := s.deck.take (s.deck.length - n) }
  if s.deck.length < 5 then
    { s with deck := shuffle s.discard_pile, discard_pile := [] }
  else s

/-- Game.toggle_card_selection (src/main.py lines 314-324). -/
def toggle_card_selection (index : Nat) (s : GameState) : GameState :=
  match s.hand[index]? with
  | none => s
  | some c =>
    let selected_count := (s.hand.filter fun c => c.selected).length
    if c.selected = false ∧ 5 ≤ selected_count then s
    else { s with hand := s.hand.set index { c with selected := !c.selected } }

/-- Game.play_hand (src/main.py lines 354-393) together with the state
changes of start_scoring_animation (lines 395-428): evaluate the selected
cards, add to the cumulative score, deduct from points_remaining clamped
at 0, complete the round (awarding one money unit per remaining hand)
when points_remaining hits 0 and the round was not already complete,
decrement hands_remaining, set game_over when hands_remaining reaches 0
with score still below points_remaining, and finally move the selected
cards out of the hand into the in-flight animation set. -/
def play_hand (s : GameState) : GameState :=
  let selected := s.hand.filter fun c => c.selected
  if selected.length = 0 then s
  else
    let hs := calculate_hand_score selected
    let s := { s with hand_type := hs.1, points := hs.2, score := s.score + hs.2,
                      points_remaining := s.points_remaining - hs.2 }
    let s :=
      if s.points_remaining = 0 ∧ s.round_complete_animation = false
          ∧ s.round_complete = false then
        { s with round_complete := true,
                 money_earned_this_round := (s.hands_remaining : ℚ),
                 money := roundCents (s.money + (s.hands_remaining : ℚ)),
                 round_complete_animation := true }
      else s
    let s := { s with hands_remaining := s.hands_remaining - 1 }
    let s :=
      if s.hands_remaining = 0 ∧ s.score < s.points_remaining then
        { s with game_over := true }
      else s
    { s with scoring_animation := true, animated_cards := selected,
             hand := s.hand.filter fun c => !c.selected }

/-- Game.update_scoring_animation (src/main.py lines 659-684), restricted
to its state-machine effect: before 3.5 elapsed seconds only the
presentation fields (progress, alpha) change; at 3.5 seconds the
animation ends and replacement cards are dealt.  The animated cards are
not moved anywhere by the source. -/
def update_scoring_animation (shuffle : List Card → List Card) (elapsed : ℚ)
    (s : GameState) : GameState :=
  if s.scoring_animation = false then s
  else if 35/10 ≤ elapsed then
    deal_hand shuffle none { s with scoring_animation := false }
  else s

/-- Game.update_round_complete_animation (src/main.py lines 627-657),
restricted to its state-machine effect: at 1.5 elapsed seconds the
animation ends, the recap is shown and 20% interest is applied to money. -/
def update_round_complete_animation (elapsed : ℚ) (s : GameState) : GameState :=
  if s.round_complete_animation = false then s
  else if 15/10 ≤ elapsed then
    { s with round_complete_animation := false,
             show_round_recap := true,
             interest_earned_this_round := roundCents (s.money * (20/100)),
             money := roundCents (s.money + roundCents (s.money * (20/100))) }
  else s

/-- Discard intent: the Discard-button branch of Game.handle_click
(src/main.py lines 964-977).  Requires discards_remaining > 0 and at
least one selected card; otherwise nothing happens. -/
def discard_intent (shuffle : List Card → List Card) (s : GameState) : GameState :=
  if 0 < s.discards_remaining then
    let selected_to_discard := s.hand.filter fun c => c.selected
    if 0 < selected_to_discard.length then
      let s := deal_hand shuffle (some selected_to_discard)
        { s with discards_remaining := s.discards_remaining - 1 }
      { s with hand := s.hand.map fun c => { c with selected := false } }
    else s
  else s

/-- Game.start_next_round (src/main.py lines 1069-1100).  Note the source
recreates the deck but clears neither the hand nor the discard pile. -/
def start_next_round (shuffle : List Card → List Card) (s : GameState) : GameState :=
  let s := { s with
    round := s.round + 1,
    score := 0,
    points := 0,
    hand_type := none,
    hands_remaining := 5,
    base_points_required := 3 * s.base_points_required / 2,
    points_remaining := 3 * s.base_points_required / 2,
    discards_remaining := s.max_discards_per_round,
    round_complete := false,
    show_round_recap := false,
    show_shop_menu := false,
    money_earned_this_round := 0,
    interest_earned_this_round := 0,
    scoring_animation := false,
    animated_cards := [],
    pot_index := (s.pot_index + 1) % 3,
    level_index := if (s.pot_index + 1) % 3 = 0 then (s.level_index + 1) % 3
      else s.level_index }
  deal_hand shuffle none { s with deck := shuffle fullDeck }

/-- State written by Game.__init__ before create_deck/deal_hand run. -/
def initState : GameState :=
  { deck := []
    hand := []
    discard_pile := []
    score := 0
    points := 0
    round := 1
    hand_type := none
    hands_remaining := 5
    base_points_required := 100
    points_remaining := 100
    game_over := false
    pot_index := 0
    level_index := 0
    max_discards_per_round := 3
    discards_remaining := 3
    max_hand_size := 8
    scoring_animation := false
    animated_cards := []
    round_complete_animation := false
    show_round_recap := false
    round_complete := false
    money := 0
    money_earned_this_round := 0
    interest_earned_this_round := 0
    show_shop_menu := false }

/-- Game.__init__ tail: create_deck then deal_hand. -/
def initGame (shuffle : List Card → List Card) : GameState :=
  deal_hand shuffle none { initState with deck := shuffle fullDeck }

/-- Game.restart_game (src/main.py lines 1241-1275). -/
def restart_game (shuffle : List Card → List Card) (s : GameState) : GameState :=
  deal_hand shuffle none { initState with
    max_hand_size := 8, deck := shuffle fullDeck,
    round_complete_animation := s.round_complete_animation }

end Shortdeck

namespace Shortdeck

/- Helper lemmas shared by the claim theorems below. -/

lemma filter_selected_len {s : GameState}
    (h : (s.hand.filter fun c => c.selected) ≠ []) :
    ¬((s.hand.filter fun c => c.selected).length = 0) := by
  simpa [List.length_eq_zero] using h

lemma deal_hand_none_round (shuffle : List Card → List Card) (s : GameState) :
    (deal_hand shuffle none s).round = s.round := by
  unfold deal_hand; dsimp only; split <;> rfl

lemma deal_hand_none_base (shuffle : List Card → List Card) (s : GameState) :
    (deal_hand shuffle none s).base_points_required = s.base_points_required := by
  unfold deal_hand; dsimp only; split <;> rfl

lemma deal_hand_none_pr (shuffle : List Card → List Card) (s : GameState) :
    (deal_hand shuffle none s).points_remaining = s.points_remaining := by
  unfold deal_hand; dsimp only; split <;> rfl

lemma deal_hand_none_hands (shuffle : List Card → List Card) (s : GameState) :
    (deal_hand shuffle none s).hands_remaining = s.hands_remaining := by
  unfold deal_hand; dsimp only; split <;> rfl

lemma deal_hand_none_discards (shuffle : List Card → List Card) (s : GameState) :
    (deal_hand shuffle none s).discards_remaining = s.discards_remaining := by
  unfold deal_hand; dsimp only; split <;> rfl

/-- C3: for every state with at least one selected card, playing the hand
deducts exactly the computed score from points_remaining, clamped at 0,
and decrements hands_remaining by exactly 1 regardless of the score. -/
theorem C3_play_deducts_score_and_one_hand (s : GameState)
    (h : (s.hand.filter fun c => c.selected) ≠ []) :
    ((play_hand s).points_remaining : ℤ)
      = max 0 ((s.points_remaining : ℤ)
          - ((calculate_hand_score (s.hand.filter fun c => c.selected)).2 : ℤ))
    ∧ (play_hand s).hands_remaining = s.hands_remaining - 1 := by
  have hlen := filter_selected_len h
  constructor
  · simp only [play_hand, if_neg hlen]
    split_ifs <;> simp <;> omega
  · simp only [play_hand, if_neg hlen]
    split_ifs <;> simp

/-- Witness for C3 at a concrete state: a lone selected ace of spades. -/
theorem C3_witness :
    ((play_hand { initState with
        hand := [{ suit := .spades, rank := .ace, selected := true }] }).points_remaining : ℤ)
      = max 0 ((({ initState with
          hand := [{ suit := .spades, rank := .ace, selected := true }] } :
            GameState).points_remaining : ℤ)
          - ((calculate_hand_score (({ initState with
              hand := [{ suit := .spades, rank := .ace, selected := true }] } :
                GameState).hand.filter fun c => c.selected)).2 : ℤ))
    ∧ (play_hand { initState with
        hand := [{ suit := .spades, rank := .ace, selected := true }] }).hands_remaining
      = ({ initState with
          hand := [{ suit := .spades, rank := .ace, selected := true }] } :
            GameState).hands_remaining - 1 :=
  C3_play_deducts_score_and_one_hand _ (by decide)

end Shortdeck

namespace Shortdeck

/-- Three aces and two kings, the concrete hand named by claim C4. -/
def aaakk : List Card :=
  [{ suit := .spades, rank := .ace }, { suit := .hearts, rank := .ace },
   { suit := .diamonds, rank := .ace }, { suit := .spades, rank := .king },
   { suit := .hearts, rank := .king }]

/-- C4 counterexample: the claim asserts score {A,A,A,K,K} = 54, but the
code gives each King a +3 bonus (13 - 10), not +1, so the score is 58. -/
theorem C4_counterexample_aaakk :
    calculate_hand_score aaakk ≠ (some HandType.FULL_HOUSE, 54)
    ∧ calculate_hand_score aaakk = (some HandType.FULL_HOUSE, 58) := by
  constructor
  · decide
  · decide

/-- C4 (amended): for every non-empty selection the score is the base
points of the evaluated category per the fixed table plus (rank - 10)
for every card with rank above 10; concretely {A,A,A,K,K} is a Full
House worth 40 + (4+4+4+3+3) = 58 (the King bonus is +3, not +1). -/
theorem C4_score_is_base_plus_face_bonus (cards : List Card) (h : cards ≠ []) :
    calculate_hand_score cards
      = (some (evaluate_hand cards).1,
          basePoints (evaluate_hand cards).1
            + (cards.map fun c => c.rank.val - 10).sum)
    ∧ (basePoints HandType.HIGH_CARD = 5 ∧ basePoints HandType.PAIR = 10
      ∧ basePoints HandType.TWO_PAIR = 20 ∧ basePoints HandType.THREE_OF_A_KIND = 30
      ∧ basePoints HandType.STRAIGHT = 30 ∧ basePoints HandType.FLUSH = 35
      ∧ basePoints HandType.FULL_HOUSE = 40 ∧ basePoints HandType.FOUR_OF_A_KIND = 60
      ∧ basePoints HandType.STRAIGHT_FLUSH = 100 ∧ basePoints HandType.ROYAL_FLUSH = 100
      ∧ basePoints HandType.FIVE_OF_A_KIND = 150)
    ∧ calculate_hand_score aaakk = (some HandType.FULL_HOUSE, 40 + (4 + 4 + 4 + 3 + 3)) := by
  refine ⟨?_, by decide, by decide⟩
  simp [calculate_hand_score, h]

/-- Witness for C4 at the concrete hand {A,A,A,K,K}. -/
theorem C4_witness :
    calculate_hand_score aaakk
      = (some (evaluate_hand aaakk).1,
          basePoints (evaluate_hand aaakk).1
            + (aaakk.map fun c => c.rank.val - 10).sum) :=
  (C4_score_is_base_plus_face_bonus aaakk (by decide)).1

/-- C5: with the round-complete animation active and 1.5 seconds elapsed,
the tick transitions to the recap, applies 20% interest once
(money = round(money + round(money * 0.20, 2), 2)), and every later tick
of the resulting state is a no-op, so the update is not reapplied. -/
theorem C5_interest_applied_once (s : GameState) (elapsed : ℚ)
    (h1 : s.round_complete_animation = true) (h2 : 15/10 ≤ elapsed) :
    (update_round_complete_animation elapsed s).money
      = roundCents (s.money + roundCents (s.money * (20/100)))
    ∧ (update_round_complete_animation elapsed s).show_round_recap = true
    ∧ (update_round_complete_animation elapsed s).round_complete_animation = false
    ∧ ∀ e2 : ℚ, update_round_complete_animation e2
        (update_round_complete_animation elapsed s)
      = update_round_complete_animation elapsed s := by
  simp [update_round_complete_animation, h1, h2]

/-- Concrete state entering the round-complete animation with 10 money. -/
def recapProbe : GameState :=
  { initState with round_complete_animation := true, money := 10 }

/-- Witness for C5 at the concrete state recapProbe with elapsed = 2s. -/
theorem C5_witness :
    (update_round_complete_animation 2 recapProbe).money
      = roundCents (recapProbe.money + roundCents (recapProbe.money * (20/100)))
    ∧ (update_round_complete_animation 2 recapProbe).show_round_recap = true
    ∧ (update_round_complete_animation 2 recapProbe).round_complete_animation = false
    ∧ ∀ e2 : ℚ, update_round_complete_animation e2
        (update_round_complete_animation 2 recapProbe)
      = update_round_complete_animation 2 recapProbe :=
  C5_interest_applied_once recapProbe 2 rfl (by norm_num)

/-- C6: starting the next round increments the round counter, scales the
base target to the integer truncation of 1.5 times the previous base
target, resets points_remaining to that new target, resets
hands_remaining to the fixed starting count 5 and discards_remaining to
max_discards_per_round; from the initial base 100 the targets are
100, 150, 225. -/
theorem C6_round_transition_scaling (shuffle : List Card → List Card) (s : GameState) :
    (start_next_round shuffle s).round = s.round + 1
    ∧ (start_next_round shuffle s).base_points_required = 3 * s.base_points_required / 2
    ∧ (start_next_round shuffle s).points_remaining = 3 * s.base_points_required / 2
    ∧ (start_next_round shuffle s).hands_remaining = 5
    ∧ (start_next_round shuffle s).discards_remaining = s.max_discards_per_round
    ∧ initState.base_points_required = 100
    ∧ (start_next_round shuffle initState).points_remaining = 150
    ∧ (start_next_round shuffle (start_next_round shuffle initState)).points_remaining = 225 := by
  have hfields : ∀ t : GameState,
      (start_next_round shuffle t).round = t.round + 1
      ∧ (start_next_round shuffle t).base_points_required = 3 * t.base_points_required / 2
      ∧ (start_next_round shuffle t).points_remaining = 3 * t.base_points_required / 2
      ∧ (start_next_round shuffle t).hands_remaining = 5
      ∧ (start_next_round shuffle t).discards_remaining = t.max_discards_per_round := by
    intro t
    unfold start_next_round
    refine ⟨?_, ?_, ?_, ?_, ?_⟩
    · rw [deal_hand_none_round]
    · rw [deal_hand_none_base]
    · rw [deal_hand_none_pr]
    · rw [deal_hand_none_hands]
    · rw [deal_hand_none_discards]
  refine ⟨(hfields s).1, (hfields s).2.1, (hfields s).2.2.1, (hfields s).2.2.2.1,
    (hfields s).2.2.2.2, rfl, ?_, ?_⟩
  · rw [(hfields initState).2.2.1]; decide
  · rw [(hfields (start_next_round shuffle initState)).2.2.1,
      (hfields initState).2.1]; decide

end Shortdeck

namespace Shortdeck

/-- C7: when a play makes points_remaining hit 0 with the round not yet
marked complete, the round_complete flag is set, money grows by exactly
the current hands_remaining (rounded to cents) and the round-complete
animation state is entered; and once round_complete is set, a play never
awards money again, so the award happens at most once per round. -/
theorem C7_round_completion_award (s : GameState) :
    ((s.hand.filter fun c => c.selected) ≠ [] →
      s.points_remaining
          ≤ (calculate_hand_score (s.hand.filter fun c => c.selected)).2 →
      s.round_complete = false → s.round_complete_animation = false →
      (play_hand s).round_complete = true
      ∧ (play_hand s).round_complete_animation = true
      ∧ (play_hand s).money = roundCents (s.money + (s.hands_remaining : ℚ)))
    ∧ (s.round_complete = true →
      (play_hand s).money = s.money ∧ (play_hand s).round_complete = true) := by
  constructor
  · intro h hle hrc hrca
    have hlen := filter_selected_len h
    have hpr : s.points_remaining
        - (calculate_hand_score (s.hand.filter fun c => c.selected)).2 = 0 :=
      Nat.sub_eq_zero_of_le hle
    simp only [play_hand, if_neg hlen]
    rw [if_pos (show _ ∧ _ ∧ _ from ⟨hpr, hrca, hrc⟩)]
    split_ifs <;> exact ⟨rfl, rfl, rfl⟩
  · intro hrc
    by_cases hlen : (s.hand.filter fun c => c.selected).length = 0
    · unfold play_hand
      rw [if_pos hlen]
      exact ⟨rfl, hrc⟩
    · have hcond : ¬(s.points_remaining
          - (calculate_hand_score (s.hand.filter fun c => c.selected)).2 = 0
          ∧ s.round_complete_animation = false ∧ s.round_complete = false) := by
        simp [hrc]
      simp only [play_hand, if_neg hlen, if_neg hcond]
      split_ifs <;> exact ⟨rfl, hrc⟩

/-- Concrete state for C7: one selected ace, 9 points remaining, three
hands remaining and no money yet. -/
def completionProbe : GameState :=
  { initState with
      hand := [{ suit := .spades, rank := .ace, selected := true }],
      points_remaining := 9,
      hands_remaining := 3 }

/-- Witness for C7 at completionProbe: the lone ace scores 9, meeting the
9 remaining points exactly. -/
theorem C7_witness :
    (play_hand completionProbe).round_complete = true
    ∧ (play_hand completionProbe).round_complete_animation = true
    ∧ (play_hand completionProbe).money
      = roundCents (completionProbe.money + (completionProbe.hands_remaining : ℚ)) :=
  (C7_round_completion_award completionProbe).1 (by decide) (by decide) rfl rfl

/-- C8: every 5-card hand whose cards all share one rank evaluates to
Five of a Kind (tiebreak 10), never Four of a Kind or Flush. -/
theorem C8_all_same_rank_is_five_of_a_kind (cards : List Card) (r : Rank)
    (h5 : cards.length = 5) (hr : ∀ c ∈ cards, c.rank = r) :
    evaluate_hand cards = (HandType.FIVE_OF_A_KIND, 10) := by
  have hranks : ranksOf cards = List.replicate 5 r.val := by
    rw [List.eq_replicate_iff]
    refine ⟨by simp [ranksOf, h5], ?_⟩
    intro b hb
    simp only [ranksOf, List.mem_map] at hb
    obtain ⟨c, hc, rfl⟩ := hb
    rw [hr c hc]
  have hdedup : (ranksOf cards).dedup = [r.val] := by
    rw [hranks]; exact List.replicate_dedup (by norm_num)
  have hcounts : countsOf cards = [5] := by
    unfold countsOf
    rw [hdedup, hranks]
    simp [sortDesc, sortAsc, List.insertionSort, List.count_replicate_self]
  have hsorted : sortedRanksOf cards = [r.val] := by
    unfold sortedRanksOf
    rw [hdedup]
    simp [sortAsc, List.insertionSort]
  rw [evaluate_hand, hcounts, hsorted, h5]
  unfold evalFrom
  simp

/-- Witness for C8: five aces (one per suit). -/
theorem C8_witness :
    evaluate_hand
      [{ suit := .spades, rank := .ace }, { suit := .hearts, rank := .ace },
       { suit := .diamonds, rank := .ace }, { suit := .clubs, rank := .ace },
       { suit := .stars, rank := .ace }] = (HandType.FIVE_OF_A_KIND, 10) :=
  C8_all_same_rank_is_five_of_a_kind _ Rank.ace (by decide) (by decide)

/-- C9: with no discards remaining the Discard intent leaves the whole
state unchanged and raises no error (the function is total). -/
theorem C9_discard_noop_when_exhausted (shuffle : List Card → List Card)
    (s : GameState) (h : s.discards_remaining = 0) :
    discard_intent shuffle s = s := by
  simp [discard_intent, h]

/-- Witness for C9 at a concrete state with zero discards remaining. -/
theorem C9_witness :
    discard_intent id { initState with discards_remaining := 0 }
      = { initState with discards_remaining := 0 } :=
  C9_discard_noop_when_exhausted id { initState with discards_remaining := 0 } rfl

end Shortdeck

namespace Shortdeck

/- Permutation lemmas for the hand evaluator (claim C10). -/

lemma sortAsc_eq_of_perm {l1 l2 : List Nat} (h : List.Perm l1 l2) :
    sortAsc l1 = sortAsc l2 :=
  List.eq_of_perm_of_sorted
    (((List.perm_insertionSort _ l1).trans h).trans
      (List.perm_insertionSort _ l2).symm)
    (List.sorted_insertionSort _ l1) (List.sorted_insertionSort _ l2)

lemma ranksOf_perm {c1 c2 : List Card} (h : List.Perm c1 c2) :
    List.Perm (ranksOf c1) (ranksOf c2) :=
  h.map _

lemma countsOf_perm {c1 c2 : List Card} (h : List.Perm c1 c2) :
    countsOf c1 = countsOf c2 := by
  unfold countsOf sortDesc
  congr 1
  apply sortAsc_eq_of_perm
  have hc : (fun r => (ranksOf c1).count r) = fun r => (ranksOf c2).count r :=
    funext fun r => (ranksOf_perm h).count_eq r
  have step1 : List.Perm ((ranksOf c1).dedup.map fun r => (ranksOf c1).count r)
      ((ranksOf c2).dedup.map fun r => (ranksOf c1).count r) :=
    (ranksOf_perm h).dedup.map _
  have step2 : ((ranksOf c2).dedup.map fun r => (ranksOf c1).count r)
      = (ranksOf c2).dedup.map fun r => (ranksOf c2).count r := by rw [hc]
  exact step2 ▸ step1

lemma sortedRanksOf_perm {c1 c2 : List Card} (h : List.Perm c1 c2) :
    sortedRanksOf c1 = sortedRanksOf c2 :=
  sortAsc_eq_of_perm (ranksOf_perm h).dedup

lemma suitKinds_perm {c1 c2 : List Card} (h : List.Perm c1 c2) :
    suitKinds c1 = suitKinds c2 :=
  ((h.map _).dedup).length_eq

/-- C10: the hand evaluator and the scoring function are order
independent: any permutation of the card list yields the same
(category, tiebreak) pair and the same (category, points) pair. -/
theorem C10_evaluation_order_independent (l1 l2 : List Card)
    (h : List.Perm l1 l2) :
    evaluate_hand l1 = evaluate_hand l2
    ∧ calculate_hand_score l1 = calculate_hand_score l2 := by
  have he : evaluate_hand l1 = evaluate_hand l2 := by
    unfold evaluate_hand
    rw [countsOf_perm h, sortedRanksOf_perm h, suitKinds_perm h, h.length_eq]
  refine ⟨he, ?_⟩
  unfold calculate_hand_score
  by_cases h1 : l1 = []
  · have h2 : l2 = [] := by
      subst h1
      exact h.symm.eq_nil
    rw [h1, h2]
  · have h2 : l2 ≠ [] := fun e => h1 (by rw [e] at h; exact h.eq_nil)
    rw [if_neg h1, if_neg h2, he]
    have hsum : (l1.map fun c => c.rank.val - 10).sum
        = (l2.map fun c => c.rank.val - 10).sum :=
      (h.map _).sum_eq
    rw [hsum]

/-- Witness for C10 on two orderings of the same three cards. -/
theorem C10_witness :
    evaluate_hand
        [{ suit := .spades, rank := .ace }, { suit := .hearts, rank := .king },
         { suit := .stars, rank := .eight }]
      = evaluate_hand
        [{ suit := .stars, rank := .eight }, { suit := .spades, rank := .ace },
         { suit := .hearts, rank := .king }]
    ∧ calculate_hand_score
        [{ suit := .spades, rank := .ace }, { suit := .hearts, rank := .king },
         { suit := .stars, rank := .eight }]
      = calculate_hand_score
        [{ suit := .stars, rank := .eight }, { suit := .spades, rank := .ace },
         { suit := .hearts, rank := .king }] :=
  C10_evaluation_order_independent _ _ (by decide)

/-- Playing state probing claim C1: original target 100, one hand left,
four tens selected (worth 60 points as Four of a Kind). -/
def gameOverProbe : GameState :=
  { initState with
      hand := [{ suit := .spades, rank := .ten, selected := true },
               { suit := .hearts, rank := .ten, selected := true },
               { suit := .diamonds, rank := .ten, selected := true },
               { suit := .clubs, rank := .ten, selected := true }],
      hands_remaining := 1 }

/-- C1 probe: after playing the last hand from gameOverProbe the
cumulative score 60 is below the original points target 100 and
hands_remaining is 0, yet game_over stays false, because the source's
check at src/main.py line 384 compares the cumulative score against the
already-decremented points_remaining (here 40) instead of the round's
target. -/
theorem C1_game_over_check_diverges :
    (play_hand gameOverProbe).hands_remaining = 0
    ∧ (play_hand gameOverProbe).score = 60
    ∧ gameOverProbe.base_points_required = 100
    ∧ (play_hand gameOverProbe).score < gameOverProbe.base_points_required
    ∧ (play_hand gameOverProbe).points_remaining = 40
    ∧ (play_hand gameOverProbe).game_over = false := by
  refine ⟨by decide, by decide, by decide, by decide, by decide, by decide⟩

/-- Scoring-animation tick at or past 3.5 seconds: the animation ends and
replacement cards are dealt; nothing moves the played cards anywhere. -/
lemma update_scoring_fires (shuffle : List Card → List Card) (elapsed : ℚ)
    (s : GameState) (h1 : s.scoring_animation = true) (h2 : 35/10 ≤ elapsed) :
    update_scoring_animation shuffle elapsed s
      = deal_hand shuffle none { s with scoring_animation := false } := by
  simp [update_scoring_animation, h1, h2]

/-- Concrete intent sequence for claim C2: fresh game with the identity
shuffle, select the first card of the hand, play it, and tick the
scoring animation to its 3.5-second end. -/
def conservationProbe : GameState :=
  update_scoring_animation id (35/10)
    (play_hand (toggle_card_selection 0 (initGame id)))

/-- C2 probe: after one played hand (animation completed) the union of
deck, discard pile and hand holds only 34 cards; the played card
(the ace of stars) is in none of the three zones, so the 35-card
conservation invariant fails after a play intent. -/
theorem C2_conservation_fails_after_play :
    conservationProbe.deck.length + conservationProbe.discard_pile.length
        + conservationProbe.hand.length = 34
    ∧ ((conservationProbe.deck ++ conservationProbe.discard_pile
        ++ conservationProbe.hand).map fun c => (c.suit, c.rank)).count
          (Suit.stars, Rank.ace) = 0
    ∧ (fullDeck.map fun c => (c.suit, c.rank)).count (Suit.stars, Rank.ace) = 1 := by
  have h := update_scoring_fires id (35/10)
    (play_hand (toggle_card_selection 0 (initGame id))) (by decide) (le_refl _)
  unfold conservationProbe
  rw [h]
  refine ⟨by decide, by decide, by decide⟩

end Shortdeck
